import Mathlib

/-!
Verification of the django-fluent-pages core: the published-object
resolver (`ecms/managers.py`), the page-type plugin base contract and
the plugin pool (`fluent_pages/extensions.py`), shallowly embedded as
executable Lean definitions with strings as lists of characters,
Python dicts as association lists with overwrite-on-insert semantics,
and Python exceptions as explicit error values.
-/

/-! ## String helpers (Python `in` and `str.strip`) -/

/-- `leadsWith needle l` is true when `needle` occurs at the start of `l`. -/
def leadsWith : List Char → List Char → Bool
  | [], _ => true
  | _ :: _, [] => false
  | a :: as, b :: bs => a == b && leadsWith as bs

/-- `occursIn needle l` is true when `needle` occurs contiguously anywhere
inside `l`: this is the semantics of the Python substring test. -/
def occursIn (needle : List Char) : List Char → Bool
  | [] => leadsWith needle []
  | b :: bs => leadsWith needle (b :: bs) || occursIn needle bs

/-- Python `needle in haystack` on strings. -/
def strIn (needle haystack : String) : Bool :=
  occursIn needle.data haystack.data

/-- Strip every leading and trailing `'/'` character, the semantics of
the Python expression `path.strip('/')` at character-list level. -/
def stripChars (l : List Char) : List Char :=
  ((l.dropWhile (· == '/')).reverse.dropWhile (· == '/')).reverse

/-! ## Published-object resolver (`CmsObjectManager` in `ecms/managers.py`) -/

inductive CmsStatus
  | published
  | draft
  deriving DecidableEq

/-- The stored content record: the fields of `CmsObject` that the
manager methods consult.  `_cached_url` is the cached normalized path. -/
structure CmsObject where
  id : Nat
  status : CmsStatus
  in_navigation : Bool
  parent : Option Nat
  _cached_url : String
  deriving DecidableEq

/-- The path normalization performed inside `get_for_path`:
`stripped = path.strip('/')` followed by
`stripped and u'/%s/' % stripped or '/'`. -/
def normChars (l : List Char) : List Char :=
  if stripChars l = [] then ['/'] else '/' :: (stripChars l ++ ['/'])

/-- String-level wrapper of `normChars`. -/
def normalizePath (p : String) : String :=
  String.mk (normChars p.data)

/-- `published()`: filter the record set down to `status == PUBLISHED`. -/
def published (db : List CmsObject) : List CmsObject :=
  db.filter (fun r => r.status == CmsStatus.published)

/-- `in_navigation()`: published records with the navigation flag set. -/
def in_navigation (db : List CmsObject) : List CmsObject :=
  (published db).filter (fun r => r.in_navigation)

inductive GetError
  | doesNotExist
  | multipleObjectsReturned
  deriving DecidableEq

/-- Django queryset `.get`: zero matches raise `DoesNotExist`, more than
one raise `MultipleObjectsReturned`, one match is returned. -/
def qsGet (l : List CmsObject) : Except GetError CmsObject :=
  match l with
  | [] => Except.error GetError.doesNotExist
  | [r] => Except.ok r
  | _ :: _ :: _ => Except.error GetError.multipleObjectsReturned

/-- `get_for_path(path)`: normalize the path, then
`self.published().get(_cached_url=stripped)`. -/
def get_for_path (db : List CmsObject) (path : String) : Except GetError CmsObject :=
  qsGet ((published db).filter (fun r => r._cached_url == normalizePath path))

inductive OrNotFoundError
  | http404 (msg : String)
  | multipleObjectsReturned
  deriving DecidableEq

/-- `get_for_path_or_404(path)`: the same lookup, with `DoesNotExist`
caught and re-raised as `Http404`; any other failure propagates. -/
def get_for_path_or_404 (db : List CmsObject) (path : String) :
    Except OrNotFoundError CmsObject :=
  match get_for_path db path with
  | Except.ok r => Except.ok r
  | Except.error GetError.doesNotExist =>
      Except.error (OrNotFoundError.http404
        ("No published CmsObject found for the path: " ++ path))
  | Except.error GetError.multipleObjectsReturned =>
      Except.error OrNotFoundError.multipleObjectsReturned

/-- `toplevel_navigation(current_page)`: in-navigation records with no
parent; when a current page is supplied, each returned record is
decorated with the transient `is_current` attribute (modelled as the
second component; `none` when the attribute was never set). -/
def toplevel_navigation (db : List CmsObject) (current_page : Option CmsObject) :
    List (CmsObject × Option Bool) :=
  match current_page with
  | some cp =>
    ((in_navigation db).filter (fun r => r.parent == none)).map
      (fun r => (r, some (r.id == cp.id)))
  | none =>
    ((in_navigation db).filter (fun r => r.parent == none)).map
      (fun r => (r, none))

/-! ## Dictionaries (Python dict as association list, overwrite on insert) -/

/-- Lookup in a Python dict, first (hence unique) matching key. -/
def dictLookup {α β : Type} [DecidableEq α] (key : α) : List (α × β) → Option β
  | [] => none
  | (k, v) :: rest => if k = key then some v else dictLookup key rest

/-- `d[key] = v` on a Python dict: overwrite the entry in place when the
key is present, append a fresh entry otherwise. -/
def dictInsert {α β : Type} [DecidableEq α] (key : α) (v : β) :
    List (α × β) → List (α × β)
  | [] => [(key, v)]
  | (k, w) :: rest =>
    if k = key then (key, v) :: rest else (k, w) :: dictInsert key v rest

/-- The keys of a dict, in order. -/
def dictKeys {α β : Type} (l : List (α × β)) : List α :=
  l.map Prod.fst

/-! ## Plugin base contract (`PageTypePlugin` in `fluent_pages/extensions.py`) -/

/-- A Django model class, identified by its name; `urlNodeSub` records
whether `issubclass(cls, UrlNode)` holds. -/
structure ModelClass where
  name : String
  urlNodeSub : Bool
  deriving DecidableEq

/-- A page-type plugin class.  `pageTypePluginSub` records whether the
class derives from `PageTypePlugin`; `model` is the `model` attribute
(`none` embeds Python `None`); `model_admin` names the admin class;
`render_template` is the static template attribute (`none` for `None`). -/
structure PluginClass where
  name : String
  pageTypePluginSub : Bool
  model : Option ModelClass
  model_admin : String
  render_template : Option String
  deriving DecidableEq

/-- The request object, treated as abstract data by the embedded logic. -/
structure HttpRequest where
  id : Nat
  deriving DecidableEq

/-- The fields of a page record that the base contract reads. -/
structure UrlNodeRecord where
  id : Nat
  parent_site : Nat
  deriving DecidableEq

/-- The context mapping built by `get_context`. -/
structure TemplateCtx where
  page : UrlNodeRecord
  site : Nat
  deriving DecidableEq

/-- The data of a constructed `TemplateResponse`. -/
structure TemplateResponseData where
  request : HttpRequest
  template : String
  context : TemplateCtx
  deriving DecidableEq

inductive RespError
  | improperlyConfigured (msg : String)
  deriving DecidableEq

/-- Base `get_render_template`: return the `render_template` attribute. -/
def get_render_template (p : PluginClass) (request : HttpRequest)
    (page : UrlNodeRecord) : Option String :=
  p.render_template

/-- Base `get_context`: the mapping with the page and its parent site. -/
def get_context (p : PluginClass) (request : HttpRequest)
    (page : UrlNodeRecord) : TemplateCtx :=
  { page := page, site := page.parent_site }

/-- The `ImproperlyConfigured` message, which names the plugin class. -/
def configErrMessage (p : PluginClass) : String :=
  p.name ++ " should either provide a definition of render_template or an implementation of get_response()"

/-- Base `get_response`: resolve the template, fail with
`ImproperlyConfigured` when it is falsy (`None` or the empty string),
otherwise build the response from the template and the context. -/
def get_response (p : PluginClass) (request : HttpRequest)
    (page : UrlNodeRecord) : Except RespError TemplateResponseData :=
  match get_render_template p request page with
  | none => Except.error (RespError.improperlyConfigured (configErrMessage p))
  | some t =>
    if t = "" then
      Except.error (RespError.improperlyConfigured (configErrMessage p))
    else
      Except.ok { request := request, template := t,
                  context := get_context p request page }

/-! ## Plugin pool (`PageTypePool` in `fluent_pages/extensions.py`) -/

/-- The pool state: the `plugins` dict (name to singleton instance, the
instance being determined by its class), the reverse `plugin_for_model`
dict, the `detected` flag, and the registry of the pool-owned admin
site (an external collaborator, modelled as the mapping it maintains). -/
structure PoolState where
  plugins : List (String × PluginClass)
  plugin_for_model : List (ModelClass × String)
  detected : Bool
  admin_site : List (ModelClass × String)
  deriving DecidableEq

/-- The pool as constructed by `__init__`. -/
def pageTypePoolInit : PoolState :=
  { plugins := [], plugin_for_model := [], detected := false, admin_site := [] }

inductive RegError
  | assertionFailed (msg : String)
  | alreadyRegistered (msg : String)
  deriving DecidableEq

/-- Is the error an `AlreadyRegistered` one? -/
def isAlreadyRegistered : Option RegError → Bool
  | some (RegError.alreadyRegistered _) => true
  | _ => false

/-- `register(plugin)`: the three upfront asserts, the name-collision
check, then the three insertions.  The returned state is the pool state
when the call finishes, raising or not: every failure happens before
any mutation, so failures return the input state. -/
def register (pool : PoolState) (plugin : PluginClass) :
    PoolState × Option RegError :=
  if plugin.pageTypePluginSub = false then
    (pool, some (RegError.assertionFailed "The plugin must inherit from PageTypePlugin"))
  else
    match plugin.model with
    | none => (pool, some (RegError.assertionFailed "The plugin has no model defined"))
    | some model =>
      if model.urlNodeSub = false then
        (pool, some (RegError.assertionFailed "The plugin model must inherit from ContentItem"))
      else if (dictLookup plugin.name pool.plugins).isSome then
        (pool, some (RegError.alreadyRegistered
          (plugin.name ++ " a plugin with this name is already registered")))
      else
        ({ pool with
            plugins := dictInsert plugin.name plugin pool.plugins,
            plugin_for_model := dictInsert model plugin.name pool.plugin_for_model,
            admin_site := dictInsert model plugin.model_admin pool.admin_site },
         none)

/-- Run a whole sequence of `register` calls, keeping the state each
call leaves behind (failed calls leave it unchanged). -/
def registerAll (pool : PoolState) : List PluginClass → PoolState
  | [] => pool
  | p :: ps => registerAll (register pool p).1 ps

/-! ## Lazy discovery (`_import_apps_submodule` and `_import_plugins`) -/

/-- The outcome of importing the conventional submodule from one
installed application package: the module imports fine, or the attempt
raises `ImportError` with the given message. -/
inductive ImportOutcome
  | ok
  | importError (msg : String)
  deriving DecidableEq

/-- The scan over `INSTALLED_APPS`: try each package in turn; an
`ImportError` is swallowed when the submodule name occurs in its
message (`if submodule not in str(e): raise`), otherwise it propagates
at once.  The result is the propagated message, if any. -/
def scanApps (submodule : String) : List ImportOutcome → Option String
  | [] => none
  | ImportOutcome.ok :: rest => scanApps submodule rest
  | ImportOutcome.importError msg :: rest =>
    if strIn submodule msg then scanApps submodule rest else some msg

/-- `_import_plugins`: return at once when `detected` is set; otherwise
run the scan over the conventional submodule name and set `detected`
only when the scan finished without raising.  The second component is
the propagated error, the third records whether a scan was performed.
This variant abstracts each app import to its outcome alone; the
registrations a clean plugin module performs as a side effect of being
imported are modelled separately by `importPluginsEffects` below. -/
def importPlugins (env : List ImportOutcome) (pool : PoolState) :
    PoolState × Option String × Bool :=
  if pool.detected then (pool, none, false)
  else
    match scanApps "page_type_plugins" env with
    | some msg => (pool, some msg, true)
    | none => ({ pool with detected := true }, none, true)

inductive PoolError
  | importFailed (msg : String)
  | assertionFailed
  | notFound (msg : String)
  | keyError
  deriving DecidableEq

/-- `get_plugins()`: trigger discovery, then return the dict values. -/
def get_plugins (env : List ImportOutcome) (pool : PoolState) :
    PoolState × Bool × Except PoolError (List PluginClass) :=
  match importPlugins env pool with
  | (pool2, some msg, scanned) => (pool2, scanned, Except.error (PoolError.importFailed msg))
  | (pool2, none, scanned) => (pool2, scanned, Except.ok (pool2.plugins.map Prod.snd))

/-- `get_model_classes()`: trigger discovery, then return the `model`
attribute of every registered plugin. -/
def get_model_classes (env : List ImportOutcome) (pool : PoolState) :
    PoolState × Bool × Except PoolError (List (Option ModelClass)) :=
  match importPlugins env pool with
  | (pool2, some msg, scanned) => (pool2, scanned, Except.error (PoolError.importFailed msg))
  | (pool2, none, scanned) =>
    (pool2, scanned, Except.ok (pool2.plugins.map (fun kv => kv.2.model)))

/-- `get_plugin_by_model(model_class)`: trigger discovery, assert the
class is a `UrlNode` subclass, then look it up in `plugin_for_model`
and resolve the name in `plugins`. -/
def get_plugin_by_model (env : List ImportOutcome) (pool : PoolState)
    (model_class : ModelClass) :
    PoolState × Bool × Except PoolError PluginClass :=
  match importPlugins env pool with
  | (pool2, some msg, scanned) => (pool2, scanned, Except.error (PoolError.importFailed msg))
  | (pool2, none, scanned) =>
    (pool2, scanned,
      if model_class.urlNodeSub = false then Except.error PoolError.assertionFailed
      else
        match dictLookup model_class pool2.plugin_for_model with
        | none => Except.error (PoolError.notFound
            ("No plugin found for model " ++ model_class.name ++ "."))
        | some name =>
          match dictLookup name pool2.plugins with
          | some inst => Except.ok inst
          | none => Except.error PoolError.keyError)

/-- `get_model_admin(model_class)`: trigger discovery, assert the class
is a `UrlNode` subclass, then look it up in the pool-owned admin
registry. -/
def get_model_admin (env : List ImportOutcome) (pool : PoolState)
    (model_class : ModelClass) :
    PoolState × Bool × Except PoolError String :=
  match importPlugins env pool with
  | (pool2, some msg, scanned) => (pool2, scanned, Except.error (PoolError.importFailed msg))
  | (pool2, none, scanned) =>
    (pool2, scanned,
      if model_class.urlNodeSub = false then Except.error PoolError.assertionFailed
      else
        match dictLookup model_class pool2.admin_site with
        | none => Except.error (PoolError.notFound
            ("No ModelAdmin found for model " ++ model_class.name ++ "."))
        | some adm => Except.ok adm)

/-- The four discovery-triggering pool accessors. -/
inductive PoolOp
  | getPlugins
  | getModelClasses
  | getPluginByModel (m : ModelClass)
  | getModelAdmin (m : ModelClass)
  deriving DecidableEq

/-- Run one accessor, keeping the pool state it leaves behind and
whether it performed the discovery scan. -/
def runOp (env : List ImportOutcome) (pool : PoolState) : PoolOp → PoolState × Bool
  | PoolOp.getPlugins => ((get_plugins env pool).1, (get_plugins env pool).2.1)
  | PoolOp.getModelClasses =>
    ((get_model_classes env pool).1, (get_model_classes env pool).2.1)
  | PoolOp.getPluginByModel m =>
    ((get_plugin_by_model env pool m).1, (get_plugin_by_model env pool m).2.1)
  | PoolOp.getModelAdmin m =>
    ((get_model_admin env pool m).1, (get_model_admin env pool m).2.1)

/-- Run a sequence of accessors, counting how many performed the scan. -/
def runOps (env : List ImportOutcome) (pool : PoolState) : List PoolOp → PoolState × Nat
  | [] => (pool, 0)
  | op :: ops =>
    let step := runOp env pool op
    let rest := runOps env step.1 ops
    (rest.1, (if step.2 then 1 else 0) + rest.2)

/-- Modelled from the spec: the spec reads the swallowing condition as
"the message indicates that exact submodule is missing in that specific
package"; the message actually raised by the Python 2 interpreter when
the submodule is absent is the fixed text below, so a message indicates
the exact submodule is missing precisely when it equals that text. -/
def indicatesSubmoduleMissing (submodule msg : String) : Bool :=
  msg == "No module named " ++ submodule

/-! ## Fixture data for concrete evaluations -/

def recRoot : CmsObject :=
  { id := 1, status := CmsStatus.published, in_navigation := true,
    parent := none, _cached_url := "/" }

def recAbout : CmsObject :=
  { id := 2, status := CmsStatus.published, in_navigation := true,
    parent := none, _cached_url := "/about/" }

def recDraft : CmsObject :=
  { id := 3, status := CmsStatus.draft, in_navigation := false,
    parent := none, _cached_url := "/draft/" }

def exampleDb : List CmsObject := [recRoot, recAbout, recDraft]

/-! ## Lemmas about stripping and normalization -/

lemma head?_dropWhile_false (p : Char → Bool) :
    ∀ (l : List Char) (c : Char), (l.dropWhile p).head? = some c → p c = false := by
  intro l
  induction l with
  | nil => intro c h; simp [List.dropWhile] at h
  | cons a as ih =>
    intro c h
    rw [List.dropWhile_cons] at h
    by_cases hp : p a = true
    · rw [if_pos hp] at h
      exact ih c h
    · rw [if_neg hp] at h
      have hac : a = c := by simpa using h
      subst hac
      exact Bool.eq_false_iff.mpr hp

lemma getLast?_of_suffix {x y : List Char} (h : x <:+ y) {c : Char}
    (hc : x.getLast? = some c) : y.getLast? = some c := by
  obtain ⟨w, rfl⟩ := h
  rw [List.getLast?_append, hc]
  rfl

lemma stripChars_getLast?_ne (l : List Char) (c : Char)
    (h : (stripChars l).getLast? = some c) : (c == '/') = false := by
  unfold stripChars at h
  rw [List.getLast?_reverse] at h
  exact head?_dropWhile_false (fun x => x == '/') _ _ h

lemma stripChars_head?_ne (l : List Char) (c : Char)
    (h : (stripChars l).head? = some c) : (c == '/') = false := by
  unfold stripChars at h
  rw [List.head?_reverse] at h
  have h2 := getLast?_of_suffix (List.dropWhile_suffix (· == '/')) h
  rw [List.getLast?_reverse] at h2
  exact head?_dropWhile_false (fun x => x == '/') _ _ h2

lemma stripChars_wrap (t : List Char) (ht : t ≠ [])
    (hhead : ∀ c, t.head? = some c → (c == '/') = false)
    (hlast : ∀ c, t.getLast? = some c → (c == '/') = false) :
    stripChars ('/' :: (t ++ ['/'])) = t := by
  obtain ⟨c, cs, rfl⟩ : ∃ c cs, t = c :: cs := by
    cases t with
    | nil => exact absurd rfl ht
    | cons c cs => exact ⟨c, cs, rfl⟩
  have hc : (c == '/') = false := hhead c rfl
  have s1 : List.dropWhile (· == '/') ('/' :: ((c :: cs) ++ ['/']))
      = (c :: cs) ++ ['/'] := by
    rw [List.dropWhile_cons, if_pos (by decide)]
    show List.dropWhile (· == '/') (c :: (cs ++ ['/'])) = c :: (cs ++ ['/'])
    rw [List.dropWhile_cons, if_neg (by simp [hc])]
  rcases hrev : (c :: cs).reverse with _ | ⟨d, ds⟩
  · exact absurd (List.reverse_eq_nil_iff.mp hrev) (List.cons_ne_nil c cs)
  · have hd : (d == '/') = false := by
      apply hlast
      rw [← List.head?_reverse, hrev]
      rfl
    show ((List.dropWhile (· == '/')
        ('/' :: ((c :: cs) ++ ['/']))).reverse.dropWhile (· == '/')).reverse = c :: cs
    rw [s1, List.reverse_append, hrev]
    show (List.dropWhile (· == '/') ('/' :: d :: ds)).reverse = c :: cs
    rw [List.dropWhile_cons, if_pos (by decide),
        List.dropWhile_cons, if_neg (by simp [hd])]
    rw [← hrev, List.reverse_reverse]

lemma normChars_idem (l : List Char) : normChars (normChars l) = normChars l := by
  by_cases h : stripChars l = []
  · have h1 : normChars l = ['/'] := by rw [normChars, if_pos h]
    rw [h1]
    rfl
  · have h1 : normChars l = '/' :: (stripChars l ++ ['/']) := by
      rw [normChars, if_neg h]
    have hs : stripChars ('/' :: (stripChars l ++ ['/'])) = stripChars l :=
      stripChars_wrap _ h (stripChars_head?_ne l) (stripChars_getLast?_ne l)
    rw [h1]
    rw [normChars, hs, if_neg h]

lemma normalizePath_idem (p : String) :
    normalizePath (normalizePath p) = normalizePath p := by
  show String.mk (normChars (normChars p.data)) = String.mk (normChars p.data)
  rw [normChars_idem]

lemma qsGet_ok_mem {l : List CmsObject} {r : CmsObject}
    (h : qsGet l = Except.ok r) : r ∈ l := by
  cases l with
  | nil => simp [qsGet] at h
  | cons a as =>
    cases as with
    | nil =>
      simp [qsGet] at h
      simp [h]
    | cons b bs => simp [qsGet] at h

lemma get_for_path_normalize_arg (db : List CmsObject) (p : String) :
    get_for_path db (normalizePath p) = get_for_path db p := by
  unfold get_for_path
  rw [normalizePath_idem]

/-- Claim C1: `get_for_path` first normalizes its argument (strip the
edge separators, wrap the remainder in separators, the empty remainder
becoming the single root separator) and then looks up the published
record whose cached path equals the normalized value, so all
unnormalized forms of a path resolve identically and `""` and `"/"`
both resolve to the root record. -/
theorem c1_get_for_path_normalizes (db : List CmsObject) (p q : String) :
    (normalizePath p = normalizePath q → get_for_path db p = get_for_path db q)
    ∧ get_for_path db (normalizePath p) = get_for_path db p
    ∧ (normalizePath "" = "/" ∧ normalizePath "/" = "/")
    ∧ get_for_path db "" = get_for_path db "/"
    ∧ (∀ r, get_for_path db p = Except.ok r →
        r ∈ db ∧ r.status = CmsStatus.published ∧ r._cached_url = normalizePath p) := by
  refine ⟨?_, get_for_path_normalize_arg db p, ⟨by decide, by decide⟩, ?_, ?_⟩
  · intro h
    unfold get_for_path
    rw [h]
  · unfold get_for_path
    have h : normalizePath "" = normalizePath "/" := by decide
    rw [h]
  · intro r h
    have hmem := qsGet_ok_mem h
    rw [List.mem_filter] at hmem
    obtain ⟨hpub, hurl⟩ := hmem
    unfold published at hpub
    rw [List.mem_filter] at hpub
    obtain ⟨hdb, hst⟩ := hpub
    refine ⟨hdb, by simpa using hst, by simpa using hurl⟩

/-- Witness for C1 on concrete data: the unnormalized form `"about"`
resolves like `"/about/"`, and a successful lookup returns a published
record of the set whose cached path is the normalized argument. -/
theorem c1_witness :
    get_for_path exampleDb "about" = get_for_path exampleDb "/about/"
    ∧ (recAbout ∈ exampleDb ∧ recAbout.status = CmsStatus.published
        ∧ recAbout._cached_url = normalizePath "about") :=
  ⟨(c1_get_for_path_normalizes exampleDb "about" "/about/").1 (by decide),
   (c1_get_for_path_normalizes exampleDb "about" "/about/").2.2.2.2 recAbout (by rfl)⟩

/-- Claim C2: `get_for_path` fails with the model `DoesNotExist` error
whenever no published record carries the normalized path, and
`get_for_path_or_404` performs the same lookup but translates exactly
that error into the HTTP-404 signal, returning the same record
otherwise. -/
theorem c2_get_for_path_or_404_translates (db : List CmsObject) (p : String) :
    ((∀ r ∈ db, r._cached_url = normalizePath p → r.status ≠ CmsStatus.published) →
        get_for_path db p = Except.error GetError.doesNotExist)
    ∧ (∀ msg, get_for_path_or_404 db p = Except.error (OrNotFoundError.http404 msg) →
        get_for_path db p = Except.error GetError.doesNotExist)
    ∧ (get_for_path db p = Except.error GetError.doesNotExist →
        get_for_path_or_404 db p = Except.error (OrNotFoundError.http404
          ("No published CmsObject found for the path: " ++ p)))
    ∧ (∀ r, get_for_path db p = Except.ok r → get_for_path_or_404 db p = Except.ok r) := by
  refine ⟨?_, ?_, ?_, ?_⟩
  · intro hno
    have hnil : (published db).filter (fun r => r._cached_url == normalizePath p) = [] := by
      rw [List.filter_eq_nil_iff]
      intro r hr hurl
      unfold published at hr
      rw [List.mem_filter] at hr
      exact hno r hr.1 (by simpa using hurl) (by simpa using hr.2)
    unfold get_for_path
    rw [hnil]
    rfl
  · intro msg h
    unfold get_for_path_or_404 at h
    cases hg : get_for_path db p with
    | ok r => rw [hg] at h; exact absurd h (by simp)
    | error e =>
      cases e with
      | doesNotExist => rfl
      | multipleObjectsReturned => rw [hg] at h; exact absurd h (by simp)
  · intro h
    unfold get_for_path_or_404
    rw [h]
  · intro r h
    unfold get_for_path_or_404
    rw [h]

/-- Witness for C2 on concrete data: the path `"draft"` names only a
draft record, so the lookup raises `DoesNotExist` and the boundary
variant turns exactly that into an HTTP 404. -/
theorem c2_witness :
    get_for_path exampleDb "draft" = Except.error GetError.doesNotExist
    ∧ get_for_path_or_404 exampleDb "draft" = Except.error (OrNotFoundError.http404
        ("No published CmsObject found for the path: " ++ "draft")) :=
  ⟨(c2_get_for_path_or_404_translates exampleDb "draft").1 (by decide),
   (c2_get_for_path_or_404_translates exampleDb "draft").2.2.1 (by rfl)⟩

lemma countP_id_eq_ite (n : Nat) :
    ∀ (l : List CmsObject), (l.map (fun r => r.id)).Nodup →
      l.countP (fun r => r.id == n) = if n ∈ l.map (fun r => r.id) then 1 else 0 := by
  intro l
  induction l with
  | nil => intro _; simp
  | cons a as ih =>
    intro hn
    rw [List.map_cons, List.nodup_cons] at hn
    obtain ⟨ha, has⟩ := hn
    rw [List.countP_cons, ih has, List.map_cons]
    simp only [List.mem_cons]
    by_cases h : a.id = n
    · have hz : n ∉ List.map (fun r => r.id) as := by
        rw [← h]
        exact ha
      simp [h, hz]
    · simp [h, Ne.symm h]

/-- Claim C6: with a current record supplied, `toplevel_navigation`
returns exactly the in-navigation records without parent, each carrying
the transient `is_current` marker that is true precisely when its
identity equals the identity of the current record, so exactly one
returned record is marked when the current record is among the results
and none otherwise; the records themselves are returned unmodified. -/
theorem c6_toplevel_navigation_marks (db : List CmsObject) (cp : CmsObject)
    (hids : (db.map (fun r => r.id)).Nodup) :
    (toplevel_navigation db (some cp)).map Prod.fst
        = (in_navigation db).filter (fun r => r.parent == none)
    ∧ (∀ pr ∈ toplevel_navigation db (some cp), pr.2 = some (pr.1.id == cp.id))
    ∧ (toplevel_navigation db (some cp)).countP (fun pr => pr.2 == some true)
        = if cp.id ∈ (toplevel_navigation db (some cp)).map (fun pr => pr.1.id)
          then 1 else 0 := by
  have hitems : ((in_navigation db).filter (fun r => r.parent == none)).map
      (fun r => r.id) |>.Nodup := by
    apply List.Nodup.sublist _ hids
    apply List.Sublist.map
    have t1 : List.Sublist ((in_navigation db).filter (fun r => r.parent == none))
        (in_navigation db) := List.filter_sublist _
    have t2 : List.Sublist (in_navigation db) (published db) := by
      unfold in_navigation
      exact List.filter_sublist _
    have t3 : List.Sublist (published db) db := by
      unfold published
      exact List.filter_sublist _
    exact (t1.trans t2).trans t3
  refine ⟨?_, ?_, ?_⟩
  · unfold toplevel_navigation
    rw [List.map_map]
    exact List.map_id _
  · intro pr hpr
    unfold toplevel_navigation at hpr
    rw [List.mem_map] at hpr
    obtain ⟨r, hr, rfl⟩ := hpr
    rfl
  · unfold toplevel_navigation
    rw [List.countP_map, List.map_map]
    have hfun : ((fun pr : CmsObject × Option Bool => pr.2 == some true) ∘
        (fun r : CmsObject => (r, some (r.id == cp.id))))
        = (fun r : CmsObject => r.id == cp.id) := by
      funext r
      show (some (r.id == cp.id) == some true) = (r.id == cp.id)
      cases hb : (r.id == cp.id) <;> rfl
    have hfun2 : ((fun pr : CmsObject × Option Bool => pr.1.id) ∘
        (fun r : CmsObject => (r, some (r.id == cp.id))))
        = (fun r : CmsObject => r.id) := rfl
    rw [hfun, hfun2]
    exact countP_id_eq_ite cp.id _ hitems

/-- Witness for C6 on concrete data: with the root record current,
exactly one returned record carries a true marker. -/
theorem c6_witness :
    (toplevel_navigation exampleDb (some recRoot)).countP (fun pr => pr.2 == some true)
      = if recRoot.id ∈ (toplevel_navigation exampleDb (some recRoot)).map
          (fun pr => pr.1.id) then 1 else 0 :=
  (c6_toplevel_navigation_marks exampleDb recRoot (by decide)).2.2

/-! ## Registration fixtures -/

def modelM : ModelClass := { name := "FluentPage", urlNodeSub := true }

def goodPlugin : PluginClass :=
  { name := "FluentPagePlugin", pageTypePluginSub := true, model := some modelM,
    model_admin := "FluentPageAdmin", render_template := none }

def poolWithGood : PoolState := (register pageTypePoolInit goodPlugin).1

def collidingNoModel : PluginClass :=
  { name := "FluentPagePlugin", pageTypePluginSub := true, model := none,
    model_admin := "FluentPageAdmin", render_template := none }

def collidingValid : PluginClass :=
  { name := "FluentPagePlugin", pageTypePluginSub := true, model := some modelM,
    model_admin := "OtherAdmin", render_template := none }

/-- Counterexample to claim C3 as stated: a plugin class deriving from
the base contract whose name collides with a registered entry but whose
`model` attribute is unset fails the upfront assert, not with
`AlreadyRegistered`, because the asserts run before the collision
check. -/
theorem c3_counterexample :
    (dictLookup collidingNoModel.name poolWithGood.plugins).isSome = true
    ∧ isAlreadyRegistered (register poolWithGood collidingNoModel).2 = false
    ∧ (register poolWithGood collidingNoModel).2
        = some (RegError.assertionFailed "The plugin has no model defined") :=
  ⟨by decide, by decide, by decide⟩

lemma register_error_state (pool : PoolState) (plugin : PluginClass) (e : RegError)
    (he : (register pool plugin).2 = some e) : (register pool plugin).1 = pool := by
  unfold register at he ⊢
  by_cases h1 : plugin.pageTypePluginSub = false
  · rw [if_pos h1]
  · rw [if_neg h1] at he ⊢
    cases hm : plugin.model with
    | none => rfl
    | some m =>
      rw [hm] at he
      dsimp only at he ⊢
      by_cases h3 : m.urlNodeSub = false
      · rw [if_pos h3]
      · rw [if_neg h3] at he ⊢
        by_cases h4 : (dictLookup plugin.name pool.plugins).isSome = true
        · rw [if_pos h4]
        · rw [if_neg h4] at he
          exact absurd he (by simp)

/-- Claim C3 (amended): for a plugin class that passes the upfront
asserts (derives from the base contract, has a model, and the model is
a `UrlNode` subtype), a name collision raises `AlreadyRegistered`; and
whenever `register` fails, in any of the four modes, the pool state is
exactly what it was before the call. -/
theorem c3_register_collision (pool : PoolState) (plugin : PluginClass)
    (m : ModelClass) :
    (plugin.pageTypePluginSub = true → plugin.model = some m → m.urlNodeSub = true →
      (dictLookup plugin.name pool.plugins).isSome = true →
      isAlreadyRegistered (register pool plugin).2 = true
      ∧ (register pool plugin).1 = pool)
    ∧ (∀ e, (register pool plugin).2 = some e → (register pool plugin).1 = pool) := by
  constructor
  · intro h1 h2 h3 h4
    simp [register, isAlreadyRegistered, h1, h2, h3, h4]
  · intro e he
    exact register_error_state pool plugin e he

/-- Witness for C3 (amended): registering a second valid plugin class
under an already-taken name fails with `AlreadyRegistered` and leaves
the pool untouched. -/
theorem c3_witness :
    isAlreadyRegistered (register poolWithGood collidingValid).2 = true
    ∧ (register poolWithGood collidingValid).1 = poolWithGood :=
  (c3_register_collision poolWithGood collidingValid modelM).1 rfl rfl rfl (by decide)

lemma mem_dictKeys_dictInsert {α β : Type} [DecidableEq α] (key a : α) (v : β) :
    ∀ (l : List (α × β)),
      a ∈ dictKeys (dictInsert key v l) ↔ a = key ∨ a ∈ dictKeys l := by
  intro l
  induction l with
  | nil => simp [dictInsert, dictKeys]
  | cons kv rest ih =>
    obtain ⟨k, w⟩ := kv
    unfold dictInsert
    by_cases h : k = key
    · rw [if_pos h]
      simp [dictKeys, h]
    · rw [if_neg h]
      simp [dictKeys] at ih ⊢
      rw [ih]
      tauto

lemma dictKeys_dictInsert_nodup {α β : Type} [DecidableEq α] (key : α) (v : β) :
    ∀ (l : List (α × β)), (dictKeys l).Nodup → (dictKeys (dictInsert key v l)).Nodup := by
  intro l
  induction l with
  | nil => intro _; simp [dictInsert, dictKeys]
  | cons kv rest ih =>
    intro hn
    obtain ⟨k, w⟩ := kv
    unfold dictKeys at hn
    rw [List.map_cons, List.nodup_cons] at hn
    obtain ⟨hk, hrest⟩ := hn
    unfold dictInsert
    by_cases h : k = key
    · rw [if_pos h]
      unfold dictKeys
      rw [List.map_cons, List.nodup_cons]
      constructor
      · rw [← h]
        exact hk
      · exact hrest
    · rw [if_neg h]
      unfold dictKeys
      rw [List.map_cons, List.nodup_cons]
      constructor
      · intro hmem
        rcases (mem_dictKeys_dictInsert key k v rest).mp hmem with h2 | h2
        · exact h h2
        · exact hk h2
      · exact ih hrest

lemma register_keeps_nodup (pool : PoolState) (plugin : PluginClass)
    (h1 : (dictKeys pool.plugins).Nodup)
    (h2 : (dictKeys pool.plugin_for_model).Nodup) :
    (dictKeys (register pool plugin).1.plugins).Nodup
    ∧ (dictKeys (register pool plugin).1.plugin_for_model).Nodup := by
  unfold register
  by_cases hc1 : plugin.pageTypePluginSub = false
  · rw [if_pos hc1]
    exact ⟨h1, h2⟩
  · rw [if_neg hc1]
    cases plugin.model with
    | none => exact ⟨h1, h2⟩
    | some m =>
      dsimp only
      by_cases hc3 : m.urlNodeSub = false
      · rw [if_pos hc3]
        exact ⟨h1, h2⟩
      · rw [if_neg hc3]
        by_cases hc4 : (dictLookup plugin.name pool.plugins).isSome = true
        · rw [if_pos hc4]
          exact ⟨h1, h2⟩
        · rw [if_neg hc4]
          exact ⟨dictKeys_dictInsert_nodup _ _ _ h1, dictKeys_dictInsert_nodup _ _ _ h2⟩

lemma registerAll_keeps_nodup :
    ∀ (ps : List PluginClass) (pool : PoolState),
      (dictKeys pool.plugins).Nodup → (dictKeys pool.plugin_for_model).Nodup →
      (dictKeys (registerAll pool ps).plugins).Nodup
      ∧ (dictKeys (registerAll pool ps).plugin_for_model).Nodup := by
  intro ps
  induction ps with
  | nil =>
    intro pool h1 h2
    exact ⟨h1, h2⟩
  | cons p rest ih =>
    intro pool h1 h2
    unfold registerAll
    obtain ⟨g1, g2⟩ := register_keeps_nodup pool p h1 h2
    exact ih _ g1 g2

/-- Claim C8: across every sequence of `register` calls starting from
the freshly constructed pool, each plugin name is registered at most
once and each model type maps to at most one plugin: both the
name-to-instance dict and the model-to-name dict keep their keys free
of duplicates. -/
theorem c8_registry_invariant (ps : List PluginClass) :
    (dictKeys (registerAll pageTypePoolInit ps).plugins).Nodup
    ∧ (dictKeys (registerAll pageTypePoolInit ps).plugin_for_model).Nodup :=
  registerAll_keeps_nodup ps pageTypePoolInit (by simp [pageTypePoolInit, dictKeys])
    (by simp [pageTypePoolInit, dictKeys])

lemma leadsWith_append (l m : List Char) : leadsWith l (l ++ m) = true := by
  induction l with
  | nil => rfl
  | cons a as ih =>
    unfold leadsWith
    rw [List.cons_append]
    simp [ih]

lemma occursIn_of_leadsWith {needle hay : List Char}
    (h : leadsWith needle hay = true) : occursIn needle hay = true := by
  cases hay with
  | nil => exact h
  | cons b bs =>
    unfold occursIn
    rw [h]
    rfl

lemma strIn_self_append (a b : String) : strIn a (a ++ b) = true := by
  unfold strIn
  rw [String.data_append]
  exact occursIn_of_leadsWith (leadsWith_append a.data b.data)

/-- Claim C7: the base-contract `get_response` fails with a
Configuration error whose message names the concrete plugin class when
`get_render_template` resolves to no template (the attribute is `None`
or empty, both falsy); otherwise it builds the response object from the
resolved template and the mapping `get_context` returns. -/
theorem c7_get_response_contract (p : PluginClass) (req : HttpRequest)
    (page : UrlNodeRecord) :
    ((get_render_template p req page = none ∨ get_render_template p req page = some "") →
      get_response p req page
          = Except.error (RespError.improperlyConfigured (configErrMessage p))
      ∧ strIn p.name (configErrMessage p) = true)
    ∧ (∀ t, get_render_template p req page = some t → t ≠ "" →
      get_response p req page
          = Except.ok { request := req, template := t, context := get_context p req page }) := by
  constructor
  · intro h
    constructor
    · unfold get_response
      rcases h with h | h
      · rw [h]
      · rw [h]
        dsimp only
        rw [if_pos rfl]
    · unfold configErrMessage
      exact strIn_self_append p.name _
  · intro t ht hne
    unfold get_response
    rw [ht]
    dsimp only
    rw [if_neg hne]

def goodTemplatePlugin : PluginClass :=
  { name := "TemplatePlugin", pageTypePluginSub := true, model := some modelM,
    model_admin := "UrlNodeAdmin", render_template := some "base.html" }

/-- Witness for C7: a plugin with no template attribute fails with the
Configuration error naming it, and one with a template builds the
response from that template and the default context. -/
theorem c7_witness :
    (get_response collidingNoModel { id := 7 } { id := 1, parent_site := 9 }
        = Except.error (RespError.improperlyConfigured (configErrMessage collidingNoModel))
      ∧ strIn collidingNoModel.name (configErrMessage collidingNoModel) = true)
    ∧ get_response goodTemplatePlugin { id := 7 } { id := 1, parent_site := 9 }
        = Except.ok { request := { id := 7 },
                      template := "base.html",
                      context := get_context goodTemplatePlugin { id := 7 }
                        { id := 1, parent_site := 9 } } :=
  ⟨(c7_get_response_contract collidingNoModel { id := 7 } { id := 1, parent_site := 9 }).1
      (Or.inl rfl),
   (c7_get_response_contract goodTemplatePlugin { id := 7 } { id := 1, parent_site := 9 }).2
      "base.html" rfl (by decide)⟩

/-- Counterexample to claim C5 as stated: an ImportError whose message
names a different, deeper module (the conventional submodule exists but
is itself broken) is still swallowed by the scan, because the check is
a substring test, although the message does not indicate that the exact
submodule is missing. -/
theorem c5_counterexample :
    scanApps "page_type_plugins"
        [ImportOutcome.importError "No module named page_type_plugins_helper"] = none
    ∧ indicatesSubmoduleMissing "page_type_plugins"
        "No module named page_type_plugins_helper" = false :=
  ⟨by decide, by decide⟩

/-- Claim C5 (amended): an ImportError raised while importing the
conventional submodule from an installed application package is
swallowed exactly when the submodule name occurs as a substring of the
failure message; the scan completes exactly when every raised message
contains the submodule name, and otherwise the first failing message
propagates unmodified to the caller. -/
theorem c5_scan_swallows_by_substring (sub : String) (env : List ImportOutcome) :
    (scanApps sub env = none ↔
      ∀ msg, ImportOutcome.importError msg ∈ env → strIn sub msg = true)
    ∧ (∀ msg, scanApps sub env = some msg →
        ImportOutcome.importError msg ∈ env ∧ strIn sub msg = false) := by
  induction env with
  | nil => simp [scanApps]
  | cons o rest ih =>
    cases o with
    | ok =>
      unfold scanApps
      constructor
      · rw [ih.1]
        constructor
        · intro h msg hm
          rcases List.mem_cons.mp hm with h2 | h2
          · simp at h2
          · exact h msg h2
        · intro h msg hm
          exact h msg (List.mem_cons_of_mem _ hm)
      · intro msg hs
        obtain ⟨hm, hf⟩ := ih.2 msg hs
        exact ⟨List.mem_cons_of_mem _ hm, hf⟩
    | importError m =>
      unfold scanApps
      by_cases hin : strIn sub m = true
      · rw [if_pos hin]
        constructor
        · rw [ih.1]
          constructor
          · intro h msg hm
            rcases List.mem_cons.mp hm with h2 | h2
            · rw [(by injection h2 : msg = m)]
              exact hin
            · exact h msg h2
          · intro h msg hm
            exact h msg (List.mem_cons_of_mem _ hm)
        · intro msg hs
          obtain ⟨hm, hf⟩ := ih.2 msg hs
          exact ⟨List.mem_cons_of_mem _ hm, hf⟩
      · rw [if_neg hin]
        constructor
        · constructor
          · intro h
            simp at h
          · intro h
            exact absurd (h m (List.mem_cons_self _ _)) hin
        · intro msg hs
          rw [← (by injection hs : m = msg)]
          exact ⟨List.mem_cons_self _ _, Bool.eq_false_iff.mpr hin⟩

/-- Witness for C5 (amended): a scan over one clean package and one
whose import raises an unrelated message propagates that message, which
indeed fails the substring test. -/
theorem c5_witness :
    ImportOutcome.importError "boom"
        ∈ [ImportOutcome.ok, ImportOutcome.importError "boom"]
    ∧ strIn "page_type_plugins" "boom" = false :=
  (c5_scan_swallows_by_substring "page_type_plugins"
    [ImportOutcome.ok, ImportOutcome.importError "boom"]).2 "boom" (by decide)

lemma importPlugins_detected (env : List ImportOutcome) (pool : PoolState)
    (h : pool.detected = true) : importPlugins env pool = (pool, none, false) := by
  unfold importPlugins
  rw [if_pos h]

lemma importPlugins_scan_ok (env : List ImportOutcome) (pool : PoolState)
    (h : pool.detected = false) (hs : scanApps "page_type_plugins" env = none) :
    importPlugins env pool = ({ pool with detected := true }, none, true) := by
  unfold importPlugins
  rw [if_neg (by simp [h]), hs]

lemma importPlugins_scan_fail (env : List ImportOutcome) (pool : PoolState) (msg : String)
    (h : pool.detected = false) (hs : scanApps "page_type_plugins" env = some msg) :
    importPlugins env pool = (pool, some msg, true) := by
  unfold importPlugins
  rw [if_neg (by simp [h]), hs]

lemma importPlugins_same_maps (env : List ImportOutcome) (pool : PoolState) :
    (importPlugins env pool).1.plugins = pool.plugins
    ∧ (importPlugins env pool).1.plugin_for_model = pool.plugin_for_model
    ∧ (importPlugins env pool).1.admin_site = pool.admin_site := by
  unfold importPlugins
  by_cases h : pool.detected = true
  · rw [if_pos h]
    exact ⟨rfl, rfl, rfl⟩
  · rw [if_neg h]
    cases scanApps "page_type_plugins" env with
    | none => exact ⟨rfl, rfl, rfl⟩
    | some msg => exact ⟨rfl, rfl, rfl⟩

lemma runOp_state (env : List ImportOutcome) (pool : PoolState) (op : PoolOp) :
    runOp env pool op = ((importPlugins env pool).1, (importPlugins env pool).2.2) := by
  rcases him : importPlugins env pool with ⟨pool2, err, scanned⟩
  cases op <;> cases err <;>
    simp [runOp, get_plugins, get_model_classes, get_plugin_by_model, get_model_admin, him]

lemma runOps_detected (env : List ImportOutcome) :
    ∀ (ops : List PoolOp) (pool : PoolState), pool.detected = true →
      runOps env pool ops = (pool, 0) := by
  intro ops
  induction ops with
  | nil =>
    intro pool h
    rfl
  | cons op rest ih =>
    intro pool h
    unfold runOps
    rw [runOp_state, importPlugins_detected env pool h]
    dsimp only
    rw [ih pool h]
    rfl

/-- Claim C4: when the scan can complete, the first of any sequence of
calls to the four discovery-triggering accessors performs the import
scan and sets the `detected` flag, and no later call in the sequence
performs another scan: exactly one scan happens over the whole
sequence. -/
theorem c4_discovery_at_most_once (env : List ImportOutcome) (pool : PoolState)
    (ops : List PoolOp) (hdet : pool.detected = false)
    (hscan : scanApps "page_type_plugins" env = none) (hne : ops ≠ []) :
    (runOps env pool ops).2 = 1 ∧ (runOps env pool ops).1.detected = true := by
  cases ops with
  | nil => exact absurd rfl hne
  | cons op rest =>
    unfold runOps
    rw [runOp_state, importPlugins_scan_ok env pool hdet hscan]
    dsimp only
    rw [runOps_detected env rest { pool with detected := true } rfl]
    exact ⟨rfl, rfl⟩

/-- Witness for C4: two consecutive `get_plugins` calls on a fresh pool
perform exactly one scan. -/
theorem c4_witness :
    (runOps [ImportOutcome.ok] pageTypePoolInit
        [PoolOp.getPlugins, PoolOp.getPlugins]).2 = 1
    ∧ (runOps [ImportOutcome.ok] pageTypePoolInit
        [PoolOp.getPlugins, PoolOp.getPlugins]).1.detected = true :=
  c4_discovery_at_most_once [ImportOutcome.ok] pageTypePoolInit
    [PoolOp.getPlugins, PoolOp.getPlugins] rfl (by decide) (by simp)

lemma importPlugins_no_error (env : List ImportOutcome) (pool : PoolState)
    (hscan : pool.detected = true ∨ scanApps "page_type_plugins" env = none) :
    (importPlugins env pool).2.1 = none := by
  rcases hscan with h | h
  · rw [importPlugins_detected env pool h]
  · by_cases hd : pool.detected = true
    · rw [importPlugins_detected env pool hd]
    · rw [importPlugins_scan_ok env pool (Bool.eq_false_iff.mpr hd) h]

/-- Claim C9: when discovery does not itself raise, calling
`get_plugin_by_model` or `get_model_admin` with a class that is not a
`UrlNode` subclass fails the assert before any lookup is attempted, and
a `PageTypeNotFound` error is only ever produced for `UrlNode`
subclasses that have no registered entry. -/
theorem c9_lookup_asserts (env : List ImportOutcome) (pool : PoolState)
    (m : ModelClass)
    (hscan : pool.detected = true ∨ scanApps "page_type_plugins" env = none) :
    (m.urlNodeSub = false →
      (get_plugin_by_model env pool m).2.2 = Except.error PoolError.assertionFailed
      ∧ (get_model_admin env pool m).2.2 = Except.error PoolError.assertionFailed)
    ∧ (∀ msg, (get_plugin_by_model env pool m).2.2
          = Except.error (PoolError.notFound msg) →
        m.urlNodeSub = true ∧ dictLookup m pool.plugin_for_model = none)
    ∧ (∀ msg, (get_model_admin env pool m).2.2
          = Except.error (PoolError.notFound msg) →
        m.urlNodeSub = true ∧ dictLookup m pool.admin_site = none) := by
  have herr := importPlugins_no_error env pool hscan
  have hmaps := importPlugins_same_maps env pool
  rcases him : importPlugins env pool with ⟨pool2, err, scanned⟩
  rw [him] at herr hmaps
  dsimp only at herr hmaps
  subst herr
  refine ⟨?_, ?_, ?_⟩
  · intro hm
    constructor
    · simp [get_plugin_by_model, him, hm]
    · simp [get_model_admin, him, hm]
  · intro msg h
    simp only [get_plugin_by_model, him] at h
    cases hu : m.urlNodeSub with
    | false =>
      rw [hu] at h
      simp at h
    | true =>
      rw [hu] at h
      simp only [Bool.true_eq_false, if_false] at h
      cases hl : dictLookup m pool2.plugin_for_model with
      | some name =>
        rw [hl] at h
        dsimp only at h
        cases hl2 : dictLookup name pool2.plugins with
        | some inst =>
          rw [hl2] at h
          simp at h
        | none =>
          rw [hl2] at h
          simp at h
      | none =>
        rw [← hmaps.2.1]
        exact ⟨rfl, hl⟩
  · intro msg h
    simp only [get_model_admin, him] at h
    cases hu : m.urlNodeSub with
    | false =>
      rw [hu] at h
      simp at h
    | true =>
      rw [hu] at h
      simp only [Bool.true_eq_false, if_false] at h
      cases hl : dictLookup m pool2.admin_site with
      | some adm =>
        rw [hl] at h
        simp at h
      | none =>
        rw [← hmaps.2.2]
        exact ⟨rfl, hl⟩

/-- Witness for C9: on a fresh pool with a clean scan, looking up a
class that does not derive from `UrlNode` trips the assert in both
accessors. -/
theorem c9_witness :
    (get_plugin_by_model [ImportOutcome.ok] pageTypePoolInit
        { name := "NotAUrlNode", urlNodeSub := false }).2.2
      = Except.error PoolError.assertionFailed
    ∧ (get_model_admin [ImportOutcome.ok] pageTypePoolInit
        { name := "NotAUrlNode", urlNodeSub := false }).2.2
      = Except.error PoolError.assertionFailed :=
  (c9_lookup_asserts [ImportOutcome.ok] pageTypePoolInit
    { name := "NotAUrlNode", urlNodeSub := false } (Or.inr (by decide))).1 rfl

/-! ## Discovery with import side effects (registrations during the scan) -/

/-- One installed application package as seen by the discovery scan,
with the top-level effect of importing its conventional submodule: a
clean package registers its plugin classes with the pool as a side
effect of the one-time module execution (as the two bundled
`page_type_plugins` modules do with their `page_type_pool.register`
calls), or the attempt raises `ImportError` with the given message. -/
inductive AppImport
  | ok (regs : List PluginClass)
  | importError (msg : String)
  deriving DecidableEq

/-- The scan over `INSTALLED_APPS` with import side effects threaded
through the pool state: importing a clean package runs its
registrations; an `ImportError` is swallowed when the submodule name
occurs in its message, otherwise it propagates at once, keeping
whatever state the earlier imports left behind. -/
def scanAppsEffects (submodule : String) :
    List AppImport → PoolState → PoolState × Option String
  | [], pool => (pool, none)
  | AppImport.ok regs :: rest, pool =>
    scanAppsEffects submodule rest (registerAll pool regs)
  | AppImport.importError msg :: rest, pool =>
    if strIn submodule msg then scanAppsEffects submodule rest pool
    else (pool, some msg)

/-- `_import_plugins` with import side effects: return at once when
`detected` is set; otherwise run the scan, whose imports may register
plugins, and set `detected` only when the scan finished without
raising.  Components: resulting pool state, propagated error, and
whether a scan was performed. -/
def importPluginsEffects (env : List AppImport) (pool : PoolState) :
    PoolState × Option String × Bool :=
  if pool.detected then (pool, none, false)
  else
    match scanAppsEffects "page_type_plugins" env pool with
    | (pool2, some msg) => (pool2, some msg, true)
    | (pool2, none) => ({ pool2 with detected := true }, none, true)

lemma register_detected (pool : PoolState) (plugin : PluginClass) :
    (register pool plugin).1.detected = pool.detected := by
  unfold register
  by_cases h1 : plugin.pageTypePluginSub = false
  · rw [if_pos h1]
  · rw [if_neg h1]
    cases plugin.model with
    | none => rfl
    | some m =>
      dsimp only
      by_cases h3 : m.urlNodeSub = false
      · rw [if_pos h3]
      · rw [if_neg h3]
        by_cases h4 : (dictLookup plugin.name pool.plugins).isSome = true
        · rw [if_pos h4]
        · rw [if_neg h4]

lemma registerAll_detected :
    ∀ (ps : List PluginClass) (pool : PoolState),
      (registerAll pool ps).detected = pool.detected := by
  intro ps
  induction ps with
  | nil =>
    intro pool
    rfl
  | cons p rest ih =>
    intro pool
    unfold registerAll
    rw [ih, register_detected]

lemma scanAppsEffects_detected (submodule : String) :
    ∀ (env : List AppImport) (pool : PoolState),
      (scanAppsEffects submodule env pool).1.detected = pool.detected := by
  intro env
  induction env with
  | nil =>
    intro pool
    rfl
  | cons o rest ih =>
    intro pool
    cases o with
    | ok regs =>
      unfold scanAppsEffects
      rw [ih, registerAll_detected]
    | importError msg =>
      unfold scanAppsEffects
      by_cases h : strIn submodule msg = true
      · rw [if_pos h, ih]
      · rw [if_neg h]

/-- Counterexample to claim C10 as stated: with a well-formed package
listed before a broken one, the first discovery call registers the good
package's plugin and then propagates the later import error with
`detected` still false — so the scan raised, yet the registry state is
not what it was before the call. -/
theorem c10_counterexample :
    (importPluginsEffects [AppImport.ok [goodPlugin], AppImport.importError "boom"]
        pageTypePoolInit).2.1 = some "boom"
    ∧ (importPluginsEffects [AppImport.ok [goodPlugin], AppImport.importError "boom"]
        pageTypePoolInit).1.detected = false
    ∧ (dictLookup "FluentPagePlugin"
        (importPluginsEffects [AppImport.ok [goodPlugin], AppImport.importError "boom"]
          pageTypePoolInit).1.plugins).isSome = true
    ∧ (importPluginsEffects [AppImport.ok [goodPlugin], AppImport.importError "boom"]
        pageTypePoolInit).1 ≠ pageTypePoolInit :=
  ⟨by decide, by decide, by decide, by decide⟩

/-- Claim C10 (amended): the `detected` flag is set to true only after
the discovery scan over all installed application packages completes
without raising; if the scan raises a propagated import error, the flag
remains false, so the next call to any discovery-triggering accessor
attempts the full scan again — although plugin registrations performed
by packages imported before the failure persist in the registry. -/
theorem c10_detected_set_only_on_success (env : List AppImport) (pool : PoolState)
    (hdet : pool.detected = false) :
    ((importPluginsEffects env pool).1.detected = true
        ↔ (scanAppsEffects "page_type_plugins" env pool).2 = none)
    ∧ (∀ msg, (scanAppsEffects "page_type_plugins" env pool).2 = some msg →
        (importPluginsEffects env pool).2.1 = some msg
        ∧ (importPluginsEffects env pool).1.detected = false
        ∧ (importPluginsEffects env ((importPluginsEffects env pool).1)).2.2 = true) := by
  have hpres := scanAppsEffects_detected "page_type_plugins" env pool
  have hif : ¬(pool.detected = true) := by simp [hdet]
  rcases hs : scanAppsEffects "page_type_plugins" env pool with ⟨pool2, err⟩
  rw [hs] at hpres
  dsimp only at hpres
  have hd2 : pool2.detected = false := by rw [hpres, hdet]
  cases err with
  | none =>
    have him : importPluginsEffects env pool = ({ pool2 with detected := true }, none, true) := by
      unfold importPluginsEffects
      rw [if_neg hif, hs]
    rw [him]
    constructor
    · simp
    · intro msg hmsg
      exact absurd hmsg (by simp)
  | some m =>
    have him : importPluginsEffects env pool = (pool2, some m, true) := by
      unfold importPluginsEffects
      rw [if_neg hif, hs]
    rw [him]
    dsimp only
    constructor
    · rw [hd2]
      simp
    · intro msg hmsg
      have hm : m = msg := by simpa using hmsg
      refine ⟨by rw [hm], hd2, ?_⟩
      unfold importPluginsEffects
      rw [if_neg (by simp [hd2])]
      rcases h3 : scanAppsEffects "page_type_plugins" env pool2 with ⟨pool3, err2⟩
      cases err2 <;> rfl

/-- Witness for C10 (amended): a good package followed by a broken one
propagates the error with the flag unset, and the next call performs
the scan again. -/
theorem c10_witness_effects :
    (importPluginsEffects [AppImport.ok [goodPlugin], AppImport.importError "boom"]
        pageTypePoolInit).2.1 = some "boom"
    ∧ (importPluginsEffects [AppImport.ok [goodPlugin], AppImport.importError "boom"]
        pageTypePoolInit).1.detected = false
    ∧ (importPluginsEffects [AppImport.ok [goodPlugin], AppImport.importError "boom"]
        ((importPluginsEffects [AppImport.ok [goodPlugin], AppImport.importError "boom"]
          pageTypePoolInit).1)).2.2 = true :=
  (c10_detected_set_only_on_success
    [AppImport.ok [goodPlugin], AppImport.importError "boom"]
    pageTypePoolInit rfl).2 "boom" (by decide)
